import Mathlib

/-!
# DracoDS: the `dragon_kbd` asset header and the emulation-core contracts

Part I embeds `arm9/build/dragon_kbd.h` (the grit-exported keyboard overlay
asset: tiles, map, palette) and checks the arithmetic the header documents.

Part II holds models of two emulation-core contracts (bank masking and the
8-bit add).  That code is not part of the inspected sources, so each
definition there is written from the specification and marked as such.
-/

set_option autoImplicit false

namespace DracoDS

/-! ## Part I: `arm9/build/dragon_kbd.h` -/

/-- Size in bytes of `unsigned int` on the ARM9 target (ILP32 ABI). The header
does not state it; it is a property of the compilation target. -/
def sizeofUnsignedInt : Nat := 4

/-- Size in bytes of `unsigned short` on the ARM9 target (ILP32 ABI). -/
def sizeofUnsignedShort : Nat := 2

/-- An `extern const T name[count];` declaration: element size and element count. -/
structure CArrayDecl where
  elemSize : Nat
  count : Nat
  deriving Repr, DecidableEq

/-- Number of bytes the declared array occupies. -/
def CArrayDecl.byteSize (a : CArrayDecl) : Nat := a.count * a.elemSize

/-- Index of the element that the byte at offset `off` belongs to. -/
def CArrayDecl.elemOfByte (a : CArrayDecl) (off : Nat) : Nat := off / a.elemSize

/-- The byte offsets touched by a copy (or by the input side of a
decompression) of `len` bytes starting at the array base: `0 .. len-1`. -/
def bytesRead (len : Nat) : List Nat := List.range len

/-- Header line 21: `#define dragon_kbdTilesLen 9212`. -/
def dragon_kbdTilesLen : Nat := 9212

/-- Header line 22: `extern const unsigned int dragon_kbdTiles[2303];`. -/
def dragon_kbdTiles : CArrayDecl := { elemSize := sizeofUnsignedInt, count := 2303 }

/-- Header line 24: `#define dragon_kbdMapLen 1676`. -/
def dragon_kbdMapLen : Nat := 1676

/-- Header line 25: `extern const unsigned short dragon_kbdMap[838];`. -/
def dragon_kbdMap : CArrayDecl := { elemSize := sizeofUnsignedShort, count := 838 }

/-- Header line 27: `#define dragon_kbdPalLen 512`. -/
def dragon_kbdPalLen : Nat := 512

/-- Header line 28: `extern const unsigned short dragon_kbdPal[256];`. -/
def dragon_kbdPal : CArrayDecl := { elemSize := sizeofUnsignedShort, count := 256 }

/-- The figures of the header's banner comment:
`+ palette 256 entries, not compressed` and
`Total size: 512 + 9212 + 1676 = 11400`. -/
structure BlockComment where
  paletteEntries : Nat
  paletteCompressed : Bool
  palBytes : Nat
  tilesBytes : Nat
  mapBytes : Nat
  totalSize : Nat
  deriving Repr, DecidableEq

/-- The banner comment of the `dragon_kbd` block (header lines 6 to 10). -/
def dragon_kbdComment : BlockComment :=
  { paletteEntries := 256
    paletteCompressed := false
    palBytes := 512
    tilesBytes := 9212
    mapBytes := 1676
    totalSize := 11400 }

/-! ## Part II: emulation-core contracts, modelled from the specification -/

/-- Modelled from the spec: the Bus and its Bank Map are absent from the
inspected sources. Section 3: the Bank Map holds the "current bank index per
bank-switchable window" and the "total bank count from loaded image". -/
structure BankMap where
  bankCount : Nat
  current : Nat → Nat

/-- Modelled from the spec: the bank currently selected for a window
(the Bank Map index of section 3). -/
def BankMap.selected (m : BankMap) (window : Nat) : Nat := m.current window

/-- Modelled from the spec: a write of the bank-select value `v` to the control
register of `window`. Section 3: "writes requesting an out-of-range bank are
masked modulo the available count, not rejected". Other windows and the bank
count are left as they were. -/
def BankMap.writeBankSelect (m : BankMap) (window v : Nat) : BankMap :=
  { m with current := fun w => if w = window then v % m.bankCount else m.current w }

/-- Modelled from the spec: the condition-code flags of the Register File
(section 3: "carry, zero, negative, overflow, interrupt-mask bits"). -/
structure Flags where
  carry : Bool
  zero : Bool
  negative : Bool
  overflow : Bool
  interruptMask : Bool
  deriving Repr, DecidableEq

/-- Modelled from the spec: the Register File of the CPU Interpreter
(section 3), reduced to one 8-bit accumulator, the program counter and the
flags. The interpreter itself is absent from the inspected sources. -/
structure RegisterFile where
  pc : Nat
  acc : Nat
  flags : Flags
  deriving Repr, DecidableEq

/-- Modelled from the spec: the effect of an 8-bit add of `operand` to the
accumulator. The specification names the flags but does not define them; they
are given their usual meaning: the result is the sum modulo 256, carry is the
carry out of bit 7, zero says the result is 0, negative is bit 7 of the result,
overflow is the signed overflow. The interrupt mask is not touched. -/
def RegisterFile.add8 (rf : RegisterFile) (operand : Nat) : RegisterFile :=
  let a := rf.acc % 256
  let b := operand % 256
  let sum := a + b
  let r := sum % 256
  { rf with
    acc := r
    flags :=
      { rf.flags with
        carry := decide (256 ≤ sum)
        zero := decide (r = 0)
        negative := decide (128 ≤ r)
        overflow := (decide (a < 128) && decide (b < 128) && decide (128 ≤ r))
          || (decide (128 ≤ a) && decide (128 ≤ b) && decide (r < 128)) } }

/-! ## Theorems, Part I: the asset header -/

/-- C6: the total size documented in the banner comment of the dragon_kbd
header, 11400, equals the sum of the three declared byte lengths
`dragon_kbdPalLen + dragon_kbdTilesLen + dragon_kbdMapLen`, and the three
summands the comment lists (512, 9212, 1676) are those declared lengths. -/
theorem dragon_kbd_total_size :
    dragon_kbdPalLen + dragon_kbdTilesLen + dragon_kbdMapLen = dragon_kbdComment.totalSize
    ∧ dragon_kbdComment.totalSize = 11400
    ∧ dragon_kbdComment.palBytes = dragon_kbdPalLen
    ∧ dragon_kbdComment.tilesBytes = dragon_kbdTilesLen
    ∧ dragon_kbdComment.mapBytes = dragon_kbdMapLen
    ∧ dragon_kbdPalLen + dragon_kbdTilesLen + dragon_kbdMapLen = 512 + 9212 + 1676 := by
  decide

/-- C7: the palette is 256 uncompressed entries: `dragon_kbdPal` is declared
with exactly 256 elements, as the banner comment says, and `dragon_kbdPalLen`
(512) is 256 entries times the 2-byte size of an `unsigned short`. -/
theorem dragon_kbd_palette_entries :
    dragon_kbdPal.count = 256
    ∧ dragon_kbdComment.paletteEntries = dragon_kbdPal.count
    ∧ dragon_kbdComment.paletteCompressed = false
    ∧ dragon_kbdPal.elemSize = 2
    ∧ dragon_kbdPalLen = 512
    ∧ dragon_kbdPalLen = 256 * sizeofUnsignedShort
    ∧ dragon_kbdPalLen = dragon_kbdPal.byteSize := by
  decide

/-- C8: the declared byte lengths of the compressed arrays are element count
times element size, `dragon_kbdTilesLen = 2303 * 4 = 9212` and
`dragon_kbdMapLen = 838 * 2 = 1676`, so every byte offset touched when exactly
`Len` bytes are read from the array base falls in an element of index below the
declared element count. -/
theorem dragon_kbd_len_in_bounds (off : Nat) :
    dragon_kbdTilesLen = dragon_kbdTiles.byteSize
    ∧ dragon_kbdTiles.byteSize = 2303 * 4
    ∧ dragon_kbdTilesLen = 9212
    ∧ dragon_kbdMapLen = dragon_kbdMap.byteSize
    ∧ dragon_kbdMap.byteSize = 838 * 2
    ∧ dragon_kbdMapLen = 1676
    ∧ (off ∈ bytesRead dragon_kbdTilesLen →
        off < dragon_kbdTiles.byteSize ∧ dragon_kbdTiles.elemOfByte off < dragon_kbdTiles.count)
    ∧ (off ∈ bytesRead dragon_kbdMapLen →
        off < dragon_kbdMap.byteSize ∧ dragon_kbdMap.elemOfByte off < dragon_kbdMap.count) := by
  refine ⟨by decide, by decide, by decide, by decide, by decide, by decide, ?_, ?_⟩
  · intro h
    have h1 : off < 9212 := by simpa [bytesRead, dragon_kbdTilesLen] using h
    have h2 : dragon_kbdTiles.byteSize = 9212 := by decide
    have h3 : dragon_kbdTiles.elemOfByte off = off / 4 := rfl
    have h4 : dragon_kbdTiles.count = 2303 := rfl
    rw [h2, h3, h4]
    omega
  · intro h
    have h1 : off < 1676 := by simpa [bytesRead, dragon_kbdMapLen] using h
    have h2 : dragon_kbdMap.byteSize = 1676 := by decide
    have h3 : dragon_kbdMap.elemOfByte off = off / 2 := rfl
    have h4 : dragon_kbdMap.count = 838 := rfl
    rw [h2, h3, h4]
    omega

/-- Witness for C8: the last byte read from the tile array, offset 9211, is a
byte of its last element, index 2302. -/
theorem dragon_kbd_len_in_bounds_witness :
    9211 ∈ bytesRead dragon_kbdTilesLen
    ∧ 9211 < dragon_kbdTiles.byteSize
    ∧ dragon_kbdTiles.elemOfByte 9211 < dragon_kbdTiles.count
    ∧ dragon_kbdTiles.elemOfByte 9211 = 2302 :=
  have hmem : 9211 ∈ bytesRead dragon_kbdTilesLen := by
    simp [bytesRead, dragon_kbdTilesLen]
  ⟨hmem, ((dragon_kbd_len_in_bounds 9211).2.2.2.2.2.2.1 hmem).1,
    ((dragon_kbd_len_in_bounds 9211).2.2.2.2.2.2.1 hmem).2, by decide⟩

/-! ## Theorems, Part II: the modelled contracts -/

/-- C1: bank masking. For every bank count k > 0 and every bank-select value v
written to the bank control register of a window, the bank selected afterwards
is `v mod k`, it lies in `[0, k)`, and the bank count is unchanged; with k = 4,
writing 7 selects bank 3. -/
theorem bank_masking (m : BankMap) (window v : Nat) (hk : 0 < m.bankCount) :
    (m.writeBankSelect window v).selected window = v % m.bankCount
    ∧ (m.writeBankSelect window v).selected window < (m.writeBankSelect window v).bankCount
    ∧ (m.writeBankSelect window v).bankCount = m.bankCount
    ∧ (m.bankCount = 4 → (m.writeBankSelect window 7).selected window = 3) := by
  refine ⟨?_, ?_, rfl, ?_⟩
  · simp [BankMap.writeBankSelect, BankMap.selected]
  · simp only [BankMap.writeBankSelect, BankMap.selected, if_true]
    exact Nat.mod_lt _ hk
  · intro h4
    simp [BankMap.writeBankSelect, BankMap.selected, h4]

/-- Witness for C1: with 4 banks, writing 7 to the control register of window 0
selects bank 3. -/
theorem bank_masking_witness :
    0 < (BankMap.mk 4 (fun _ => 0)).bankCount
    ∧ ((BankMap.mk 4 (fun _ => 0)).writeBankSelect 0 7).selected 0 = 3 :=
  ⟨by decide, (bank_masking (BankMap.mk 4 (fun _ => 0)) 0 7 (by decide)).2.2.2 rfl⟩

/-- C2: flag correctness of the 8-bit add. Whatever the program counter and
the flags before, adding the operand 0x01 to the accumulator 0xFF leaves the
accumulator 0x00 with carry set, zero set and negative clear. -/
theorem add8_ff_plus_01 (pc : Nat) (flags : Flags) :
    ((RegisterFile.mk pc 0xFF flags).add8 0x01).acc = 0x00
    ∧ ((RegisterFile.mk pc 0xFF flags).add8 0x01).flags.carry = true
    ∧ ((RegisterFile.mk pc 0xFF flags).add8 0x01).flags.zero = true
    ∧ ((RegisterFile.mk pc 0xFF flags).add8 0x01).flags.negative = false := by
  refine ⟨?_, ?_, ?_, ?_⟩ <;> simp [RegisterFile.add8]

end DracoDS
